import Mathlib

/-!
MessageBuilder: TLV header encoding and size accounting.

A shallow embedding of `src/src/messageBuilder.cpp`.

* A byte is a `Nat` below 256; a `std::vector<uint8_t>` or the characters of a
  `std::string` are a `List Nat`.
* `size_t` is a `Nat` reduced modulo `2 ^ (8 * W)` at every arithmetic step,
  `W = sizeof(size_t)`; `W` and the byte order of the machine are parameters
  (`Target`).
* A load or store outside an object is undefined behaviour in C++; here the
  operation returns `none`.
* Types and functions of other libraries (`UAttributes`, `UuidSerializer`,
  `LongUriSerializer`, `Base64`) enter as parameters (`Serializers`).
-/

namespace MessageBuilder

/-! ## Target machine -/

/-- Byte order of the object representation that `memcpy` copies. -/
inductive ByteOrder where
  | little
  | big
  deriving DecidableEq, Repr

/-- The facts about the platform that the source depends on:
`W = sizeof(size_t)` and the byte order. -/
structure Target where
  W : Nat
  order : ByteOrder
  deriving DecidableEq, Repr

/-- Number of values of `size_t`. -/
def Target.sizeRange (t : Target) : Nat := 2 ^ (8 * t.W)

/-- Unsigned `size_t` arithmetic wraps. -/
def Target.wrap (t : Target) (n : Nat) : Nat := n % t.sizeRange

/-- The usual 64-bit little-endian target (`sizeof(size_t) = 8`). -/
def lp64 : Target := { W := 8, order := ByteOrder.little }

/-- A 64-bit big-endian target. -/
def be64 : Target := { W := 8, order := ByteOrder.big }

/-- The `k` low-order bytes of `n`, least significant first. -/
def bytesLE : Nat → Nat → List Nat
  | 0, _ => []
  | k + 1, n => (n % 256) :: bytesLE k (n / 256)

/-- Object representation of an unsigned integer `n` of `width` bytes. -/
def objectBytes (o : ByteOrder) (width n : Nat) : List Nat :=
  match o with
  | ByteOrder.little => bytesLE width n
  | ByteOrder.big => (bytesLE width n).reverse

/-- Value of a least-significant-first byte sequence. -/
def valueLE : List Nat → Nat
  | [] => 0
  | b :: bs => b + 256 * valueLE bs

/-- Reading an object representation back as an unsigned integer. -/
def objectValue (o : ByteOrder) (bs : List Nat) : Nat :=
  match o with
  | ByteOrder.little => valueLE bs
  | ByteOrder.big => valueLE bs.reverse

/-- Object representation of an `int32_t` (two's complement, `sizeof(int32_t)` is 4). -/
def int32Bytes (t : Target) (v : Int) : List Nat :=
  objectBytes t.order 4 (Int.toNat (v % 2 ^ 32))

/-! ## Tags -/

/-- The enumeration `Tag`, as used by `buildHeader`. -/
inductive Tag where
  | ID
  | TYPE
  | PRIORITY
  | TTL
  | TOKEN
  | HINT
  | SINK
  | PLEVEL
  | COMMSTATUS
  | REQID
  deriving DecidableEq, Repr

/-- Modelled from the spec: the enumerator values of `Tag` are declared in
`messageBuilder.h`, which is not among the sources. The spec's example gives
ID, TYPE, PRIORITY, TTL the codes 1, 2, 3, 4; the remaining tags follow in the
declared order of §3. -/
def Tag.code : Tag → Nat
  | Tag.ID => 1
  | Tag.TYPE => 2
  | Tag.PRIORITY => 3
  | Tag.TTL => 4
  | Tag.TOKEN => 5
  | Tag.HINT => 6
  | Tag.SINK => 7
  | Tag.PLEVEL => 8
  | Tag.COMMSTATUS => 9
  | Tag.REQID => 10

/-- The conversion `static_cast<uint8_t>(tag)`. -/
def Tag.toUInt8 (tag : Tag) : Nat := tag.code % 256

/-! ## addTag -/

/-- Store the bytes `src` into `buffer` at offset `off` (`buffer[off] = ...` for one
byte, `memcpy(&buffer[off], src, n)` for several). The vector is never resized;
a range that does not lie inside the vector is undefined behaviour: `none`. -/
def store (buffer : List Nat) (off : Nat) (src : List Nat) : Option (List Nat) :=
  if off + src.length ≤ buffer.length then
    some (buffer.take off ++ src ++ buffer.drop (off + src.length))
  else
    none

/-- The function `MessageBuilder::addTag(buffer, tag, data, size, pos)`, lines 85-100.
`data` is the array behind the pointer; reading `size` bytes from a shorter array
is undefined. Returns the buffer after the three stores and the returned offset. -/
def addTag (t : Target) (buffer : List Nat) (tag : Tag) (data : List Nat)
    (size pos : Nat) : Option (List Nat × Nat) :=
  if size ≤ data.length then
    (store buffer pos [tag.toUInt8]).bind fun b1 =>
    (store b1 (t.wrap (pos + 1)) (objectBytes t.order t.W size)).bind fun b2 =>
    (store b2 (t.wrap (t.wrap (pos + t.W) + 1)) (data.take size)).bind fun b3 =>
    some (b3, t.wrap (t.wrap (t.wrap (pos + 1) + t.W) + size))
  else
    none

/-- The precondition of `addTag` (spec §4.1): the entry fits into the buffer. -/
def addTagPre (t : Target) (buffer : List Nat) (size pos : Nat) : Prop :=
  pos + 1 + t.W + size ≤ buffer.length

instance (t : Target) (buffer : List Nat) (size pos : Nat) :
    Decidable (addTagPre t buffer size pos) := by
  unfold addTagPre; exact inferInstance

/-! ## Attributes and collaborators -/

/-- The attribute set `UAttributes` (a type of another library), seen through the
getters the builder calls. Enumerated values are their ordinals, `std::string`
is its characters. -/
structure UAttributes (UUID UUri : Type) where
  id : UUID
  type : Nat
  priority : Nat
  ttl : Option Int
  token : Option (List Nat)
  serializationHint : Option Nat
  sink : Option UUri
  plevel : Option Int
  commstatus : Option Int
  reqid : Option UUID

/-- The payload `UPayload`, of which only `size()` is used. -/
structure UPayload where
  size : Nat
  deriving DecidableEq, Repr

/-- The functions of other libraries that the builder calls:
`UuidSerializer::serializeToBytes`, `LongUriSerializer::serialize` (the characters
of the returned string) and `uprotocol::tools::Base64::encode`. -/
structure Serializers (UUID UUri : Type) where
  serializeToBytes : UUID → List Nat
  serialize : UUri → List Nat
  encode : List Nat → List Nat

/-- Modelled from the spec: `UMessageType`, `UPriority` and `USerializationHint`
are declared in another library; §4.1 says enumerated ordinals are mapped to one
byte, so `sizeof` of these types is taken to be 1. -/
def sizeofEnum : Nat := 1

/-- Modelled from the spec: the getters `ttl()`, `plevel()` and `commstatus()` are
declared in another library; §3 says these fields are signed 32-bit, so `sizeof`
of their value type is 4. -/
def sizeofInt32 : Nat := 4

/-! ## updateSize and calculateSize -/

/-- The function `MessageBuilder::updateSize(size_t size, size_t &msgSize)`, lines
141-148; returns the new `msgSize`. -/
def updateSize (t : Target) (size msgSize : Nat) : Nat :=
  let msgSize := t.wrap (msgSize + 1)
  let msgSize := t.wrap (msgSize + t.W)
  t.wrap (msgSize + size)

/-- A value handed to one of the templates: a `std::string`, a
`std::vector<uint8_t>`, or an object of any other type `T`, given by its object
representation (`sizeof(T)` bytes). -/
inductive Value where
  | text (chars : List Nat)
  | bytes (v : List Nat)
  | scalar (rep : List Nat)
  deriving DecidableEq, Repr

/-- The `valueSize` chosen by the `if constexpr` chain of both templates. -/
def Value.valueSize : Value → Nat
  | Value.text chars => chars.length
  | Value.bytes v => v.length
  | Value.scalar rep => rep.length

/-- The `valueBytes` chosen by the `if constexpr` chain of the `addTag` template. -/
def Value.valueBytes : Value → List Nat
  | Value.text chars => chars
  | Value.bytes v => v
  | Value.scalar rep => rep

/-- The template `MessageBuilder::updateSize<T>(value, msgSize)`, lines 125-139. -/
def updateSizeT (t : Target) (value : Value) (msgSize : Nat) : Nat :=
  updateSize t value.valueSize msgSize

/-- The template `MessageBuilder::addTag<T>(buffer, tag, value, pos)`, lines 102-123. -/
def addTagT (t : Target) (buffer : List Nat) (tag : Tag) (value : Value)
    (pos : Nat) : Option (List Nat × Nat) :=
  addTag t buffer tag value.valueBytes value.valueSize pos

/-- An enumerated value as an object of its type. -/
def enumValue (t : Target) (ordinal : Nat) : Value :=
  Value.scalar (objectBytes t.order sizeofEnum ordinal)

/-- A signed 32-bit value as an object of its type. -/
def int32Value (t : Target) (v : Int) : Value :=
  Value.scalar (objectBytes t.order sizeofInt32 (Int.toNat (v % 2 ^ 32)))

/-- The function `MessageBuilder::calculateSize`, lines 150-190. -/
def calculateSize {UUID UUri : Type} (t : Target) (s : Serializers UUID UUri)
    (attributes : UAttributes UUID UUri) (payload : UPayload) : Nat :=
  let msgSize := 0
  let msgSize := updateSizeT t (Value.bytes (s.serializeToBytes attributes.id)) msgSize
  let msgSize := updateSizeT t (enumValue t attributes.type) msgSize
  let msgSize := updateSizeT t (enumValue t attributes.priority) msgSize
  let msgSize := match attributes.ttl with
    | some ttl => updateSizeT t (int32Value t ttl) msgSize
    | none => msgSize
  let msgSize := match attributes.token with
    | some token => updateSizeT t (Value.text token) msgSize
    | none => msgSize
  let msgSize := match attributes.serializationHint with
    | some h => updateSizeT t (enumValue t h) msgSize
    | none => msgSize
  let msgSize := match attributes.sink with
    | some sink => updateSizeT t (Value.text (s.encode (s.serialize sink))) msgSize
    | none => msgSize
  let msgSize := match attributes.plevel with
    | some plevel => updateSizeT t (int32Value t plevel) msgSize
    | none => msgSize
  let msgSize := match attributes.commstatus with
    | some c => updateSizeT t (int32Value t c) msgSize
    | none => msgSize
  let msgSize := match attributes.reqid with
    | some reqid => updateSizeT t (Value.bytes (s.serializeToBytes reqid)) msgSize
    | none => msgSize
  let msgSize := updateSize t payload.size msgSize
  msgSize

/-! ## buildHeader -/

/-- The pointer arguments of the `addTag` calls of `buildHeader`: `sizeofPtr` is
`sizeof(uint8_t*)` and `address tag` the address passed in the call for the field
with that tag (`idBytes.data()`, `&messageType`, ...), a value known only at run
time. -/
structure Pointers where
  sizeofPtr : Nat
  address : Tag → Nat

/-- The pointer passed for a field, as the object of type `uint8_t*` that the
template receives by reference. -/
def Pointers.value (p : Pointers) (t : Target) (tag : Tag) : Value :=
  Value.scalar (objectBytes t.order p.sizeofPtr (p.address tag))

/-- The statements of `MessageBuilder::buildHeader` after the declaration of
`header`, lines 36-82, run on a vector with the given content. The vector is passed
by reference to every `addTag` call; the value each call returns is discarded.

Every call gives four arguments. Where the third is a `uint8_t*` (ID, TYPE,
PRIORITY, TTL, HINT, PLEVEL, COMMSTATUS, REQID) the template
`addTag<T>(buffer, tag, value, pos)` with `T = uint8_t*` matches exactly, while the
five-parameter function needs a conversion to `const uint8_t*`: the template is
called, its value is the pointer itself and its `pos` is the fourth argument, the
size. Where the third argument is a `const uint8_t*` (TOKEN, SINK) the
five-parameter function is called with the default argument for `pos` of the
declaration in `messageBuilder.h`, which is not among the sources: it is the
parameter `pos`. -/
def buildHeaderFrom {UUID UUri : Type} (t : Target) (s : Serializers UUID UUri)
    (p : Pointers) (pos : Nat) (attributes : UAttributes UUID UUri) (header : List Nat) :
    Option (List Nat) :=
  let idBytes := s.serializeToBytes attributes.id
  (addTagT t header Tag.ID (p.value t Tag.ID) idBytes.length).bind fun r =>
  let header := r.1
  (addTagT t header Tag.TYPE (p.value t Tag.TYPE) 1).bind fun r =>
  let header := r.1
  (addTagT t header Tag.PRIORITY (p.value t Tag.PRIORITY) 1).bind fun r =>
  let header := r.1
  (match attributes.ttl with
    | some _ => (addTagT t header Tag.TTL (p.value t Tag.TTL) 4).map Prod.fst
    | none => some header).bind fun header =>
  (match attributes.token with
    | some token => (addTag t header Tag.TOKEN token token.length pos).map Prod.fst
    | none => some header).bind fun header =>
  (match attributes.serializationHint with
    | some _ => (addTagT t header Tag.HINT (p.value t Tag.HINT) 1).map Prod.fst
    | none => some header).bind fun header =>
  (match attributes.sink with
    | some sink =>
        let sinkUri := s.serialize sink
        (addTag t header Tag.SINK sinkUri sinkUri.length pos).map Prod.fst
    | none => some header).bind fun header =>
  (match attributes.plevel with
    | some _ => (addTagT t header Tag.PLEVEL (p.value t Tag.PLEVEL) 4).map Prod.fst
    | none => some header).bind fun header =>
  (match attributes.commstatus with
    | some _ => (addTagT t header Tag.COMMSTATUS (p.value t Tag.COMMSTATUS) 4).map Prod.fst
    | none => some header).bind fun header =>
  (match attributes.reqid with
    | some reqid =>
        let reqIdBytes := s.serializeToBytes reqid
        (addTagT t header Tag.REQID (p.value t Tag.REQID) reqIdBytes.length).map Prod.fst
    | none => some header).bind fun header =>
  some header

/-- The function `MessageBuilder::buildHeader`, lines 33-83: `header` is
default-constructed, that is empty, and nothing resizes it. -/
def buildHeader {UUID UUri : Type} (t : Target) (s : Serializers UUID UUri)
    (p : Pointers) (pos : Nat) (attributes : UAttributes UUID UUri) : Option (List Nat) :=
  let header : List Nat := []
  buildHeaderFrom t s p pos attributes header

/-! ## The calls made by the two passes -/

/-- The arguments `tag`, `data`, `size` of a call of the five-parameter `addTag`. -/
structure TagCall where
  tag : Tag
  data : List Nat
  size : Nat
  deriving DecidableEq, Repr

/-- A call of the five-parameter `addTag` with its `pos`. -/
structure PlacedCall extends TagCall where
  pos : Nat
  deriving DecidableEq, Repr

/-- The call of the five-parameter `addTag` that the template makes for a pointer
(line 122): the bytes of the pointer and `sizeof(uint8_t*)`, at `pos`. -/
def pointerCall (t : Target) (p : Pointers) (tag : Tag) (pos : Nat) : PlacedCall :=
  PlacedCall.mk (TagCall.mk tag (p.value t tag).valueBytes (p.value t tag).valueSize) pos

/-- The calls of the five-parameter `addTag` that `buildHeader` makes, directly or
through the template, in program order. -/
def headerCalls {UUID UUri : Type} (t : Target) (s : Serializers UUID UUri)
    (p : Pointers) (pos : Nat) (attributes : UAttributes UUID UUri) : List PlacedCall :=
  [pointerCall t p Tag.ID (s.serializeToBytes attributes.id).length,
   pointerCall t p Tag.TYPE 1,
   pointerCall t p Tag.PRIORITY 1]
  ++ (attributes.ttl.map fun _ => pointerCall t p Tag.TTL 4).toList
  ++ (attributes.token.map fun token =>
        PlacedCall.mk (TagCall.mk Tag.TOKEN token token.length) pos).toList
  ++ (attributes.serializationHint.map fun _ => pointerCall t p Tag.HINT 1).toList
  ++ (attributes.sink.map fun sink =>
        PlacedCall.mk (TagCall.mk Tag.SINK (s.serialize sink) (s.serialize sink).length)
          pos).toList
  ++ (attributes.plevel.map fun _ => pointerCall t p Tag.PLEVEL 4).toList
  ++ (attributes.commstatus.map fun _ => pointerCall t p Tag.COMMSTATUS 4).toList
  ++ (attributes.reqid.map fun r =>
        pointerCall t p Tag.REQID (s.serializeToBytes r).length).toList

/-- Run a sequence of `addTag` calls on one buffer, each at its own `pos`,
discarding the returned offsets, as `buildHeader` does. -/
def runCalls (t : Target) : List Nat → List PlacedCall → Option (List Nat)
  | buffer, [] => some buffer
  | buffer, c :: cs =>
      (addTag t buffer c.tag c.data c.size c.pos).bind fun r => runCalls t r.1 cs

/-- One `updateSize<T>` call of `calculateSize` for an attribute: the tag of the
field it accounts for and the value handed to the template. -/
structure SizeCall where
  tag : Tag
  value : Value
  deriving DecidableEq, Repr

/-- The `updateSize<T>` calls that `calculateSize` makes for the attributes, in
program order (the final call for the payload is not among them). -/
def sizeCalls {UUID UUri : Type} (t : Target) (s : Serializers UUID UUri)
    (attributes : UAttributes UUID UUri) : List SizeCall :=
  [SizeCall.mk Tag.ID (Value.bytes (s.serializeToBytes attributes.id)),
   SizeCall.mk Tag.TYPE (enumValue t attributes.type),
   SizeCall.mk Tag.PRIORITY (enumValue t attributes.priority)]
  ++ (attributes.ttl.map fun ttl => SizeCall.mk Tag.TTL (int32Value t ttl)).toList
  ++ (attributes.token.map fun token => SizeCall.mk Tag.TOKEN (Value.text token)).toList
  ++ (attributes.serializationHint.map fun h => SizeCall.mk Tag.HINT (enumValue t h)).toList
  ++ (attributes.sink.map fun sink =>
        SizeCall.mk Tag.SINK (Value.text (s.encode (s.serialize sink)))).toList
  ++ (attributes.plevel.map fun v => SizeCall.mk Tag.PLEVEL (int32Value t v)).toList
  ++ (attributes.commstatus.map fun v => SizeCall.mk Tag.COMMSTATUS (int32Value t v)).toList
  ++ (attributes.reqid.map fun r =>
        SizeCall.mk Tag.REQID (Value.bytes (s.serializeToBytes r))).toList

/-- The bytes one call contributes to the estimate: what `updateSize` adds for a
value of the given size when nothing wraps. -/
def contribution (t : Target) (valueSize : Nat) : Nat := 1 + t.W + valueSize

/-! ## The layout and the estimate in the spec's words -/

/-- Modelled from the spec: a TLV entry (§3) is the tag byte, the length as a
fixed-width field and the value bytes. -/
def tlvEntry (t : Target) (c : TagCall) : List Nat :=
  [c.tag.toUInt8] ++ objectBytes t.order t.W c.size ++ c.data.take c.size

/-- Modelled from the spec: the entries of the header (§3, §4.1, §4.3), in the fixed
order: ID with the serialized identifier, TYPE and PRIORITY with the ordinal as one
byte, then for each present optional field TTL (4 bytes), TOKEN (its characters),
HINT (one byte), SINK (the canonical text), PLEVEL and COMMSTATUS (4 bytes each),
REQID (the serialized identifier). -/
def specEntries {UUID UUri : Type} (t : Target) (s : Serializers UUID UUri)
    (attributes : UAttributes UUID UUri) : List TagCall :=
  [TagCall.mk Tag.ID (s.serializeToBytes attributes.id) (s.serializeToBytes attributes.id).length,
   TagCall.mk Tag.TYPE [attributes.type % 256] 1,
   TagCall.mk Tag.PRIORITY [attributes.priority % 256] 1]
  ++ (attributes.ttl.map fun ttl => TagCall.mk Tag.TTL (int32Bytes t ttl) 4).toList
  ++ (attributes.token.map fun token => TagCall.mk Tag.TOKEN token token.length).toList
  ++ (attributes.serializationHint.map fun h => TagCall.mk Tag.HINT [h % 256] 1).toList
  ++ (attributes.sink.map fun sink =>
        TagCall.mk Tag.SINK (s.serialize sink) (s.serialize sink).length).toList
  ++ (attributes.plevel.map fun v => TagCall.mk Tag.PLEVEL (int32Bytes t v) 4).toList
  ++ (attributes.commstatus.map fun v => TagCall.mk Tag.COMMSTATUS (int32Bytes t v) 4).toList
  ++ (attributes.reqid.map fun r =>
        TagCall.mk Tag.REQID (s.serializeToBytes r) (s.serializeToBytes r).length).toList

/-- Modelled from the spec: the header buffer (§3) is the ordered concatenation of
the entries of the mandatory fields and of the present optional fields. -/
def specHeader {UUID UUri : Type} (t : Target) (s : Serializers UUID UUri)
    (attributes : UAttributes UUID UUri) : List Nat :=
  ((specEntries t s attributes).map (tlvEntry t)).flatten

/-- Modelled from the spec: reading a buffer as a sequence of TLV entries from
offset 0 and collecting the tag bytes; `fuel` bounds the number of entries. -/
def entryTags (t : Target) : Nat → List Nat → List Nat
  | 0, _ => []
  | _ + 1, [] => []
  | fuel + 1, tag :: rest =>
      tag :: entryTags t fuel
        ((rest.drop t.W).drop (objectValue t.order (rest.take t.W)))

/-- The tags of the entries of a buffer. -/
def readTags (t : Target) (buffer : List Nat) : List Nat :=
  entryTags t buffer.length buffer

/-- The term of the estimate for an optional field. -/
def optionalTerm {α : Type} (t : Target) (field : Option α) (valueLength : α → Nat) : Nat :=
  match field with
  | some v => 1 + t.W + valueLength v
  | none => 0

/-- Modelled from the spec: the estimate (§4.2) is the sum of
`1 + W + value_length` over ID, TYPE, PRIORITY and the present optional fields,
plus `1 + W + payload_size`. The value length of the sink is that of its encoded
text, as in `calculateSize`. -/
def specEstimate {UUID UUri : Type} (t : Target) (s : Serializers UUID UUri)
    (attributes : UAttributes UUID UUri) (payload : UPayload) : Nat :=
  (1 + t.W + (s.serializeToBytes attributes.id).length)
  + (1 + t.W + 1)
  + (1 + t.W + 1)
  + optionalTerm t attributes.ttl (fun _ => 4)
  + optionalTerm t attributes.token (fun token => token.length)
  + optionalTerm t attributes.serializationHint (fun _ => 1)
  + optionalTerm t attributes.sink (fun sink => (s.encode (s.serialize sink)).length)
  + optionalTerm t attributes.plevel (fun _ => 4)
  + optionalTerm t attributes.commstatus (fun _ => 4)
  + optionalTerm t attributes.reqid (fun r => (s.serializeToBytes r).length)
  + (1 + t.W + payload.size)

/-! ## A concrete instance of the collaborators -/

/-- The Base64 alphabet (RFC 4648), as character codes. -/
def base64Char (n : Nat) : Nat :=
  if n < 26 then 65 + n
  else if n < 52 then 97 + (n - 26)
  else if n < 62 then 48 + (n - 52)
  else if n = 62 then 43
  else 47

/-- Modelled from the spec: the byte-to-text codec `Base64::encode` belongs to
another library; this is standard Base64 with `=` padding. -/
def base64Encode : List Nat → List Nat
  | [] => []
  | [a] => [base64Char (a / 4), base64Char (a % 4 * 16), 61, 61]
  | [a, b] =>
      [base64Char (a / 4), base64Char (a % 4 * 16 + b / 16), base64Char (b % 16 * 4), 61]
  | a :: b :: c :: rest =>
      base64Char (a / 4) :: base64Char (a % 4 * 16 + b / 16)
        :: base64Char (b % 16 * 4 + c / 64) :: base64Char (c % 64) :: base64Encode rest

/-- Modelled from the spec: concrete collaborators. An identifier is a 128-bit
number serialized to 16 bytes, most significant first (§6: identifier to
fixed-width bytes); a URI is given by its canonical text; the codec is Base64. -/
def stdSerializers : Serializers Nat (List Nat) where
  serializeToBytes := fun u => (bytesLE 16 u).reverse
  serialize := fun uri => uri
  encode := base64Encode

/-- The attribute set of the spec's example scenario (§8): id `00…01`, type ordinal
2, priority ordinal 3, ttl 1000, nothing else. -/
def exampleAttributes : UAttributes Nat (List Nat) where
  id := 1
  type := 2
  priority := 3
  ttl := some 1000
  token := none
  serializationHint := none
  sink := none
  plevel := none
  commstatus := none
  reqid := none

/-- The attribute set of the spec's regression scenario (§8): of the optional
fields only `sink` is present; its canonical text is `/a/1`. -/
def sinkAttributes : UAttributes Nat (List Nat) where
  id := 1
  type := 0
  priority := 0
  ttl := none
  token := none
  serializationHint := none
  sink := some [47, 97, 47, 49]
  plevel := none
  commstatus := none
  reqid := none

/-- Modelled from the spec: the expected header buffer of the example scenario
(§8), with each integer written in the order the spec prints it, most significant
byte first: length 16 as `00000000 00000010`, 1000 as `00 00 03 E8`. -/
def exampleExpected : List Nat :=
  [1, 0, 0, 0, 0, 0, 0, 0, 16, 0, 0, 0, 0, 0, 0, 0, 0, 0, 0, 0, 0, 0, 0, 0, 1]
  ++ [2, 0, 0, 0, 0, 0, 0, 0, 1, 2]
  ++ [3, 0, 0, 0, 0, 0, 0, 0, 1, 3]
  ++ [4, 0, 0, 0, 0, 0, 0, 0, 4, 0, 0, 3, 232]

/-- An attribute set whose token is present and is the empty string; nothing else
optional is present. -/
def emptyTokenAttributes : UAttributes Nat (List Nat) where
  id := 1
  type := 0
  priority := 0
  ttl := none
  token := some []
  serializationHint := none
  sink := none
  plevel := none
  commstatus := none
  reqid := none

/-- An attribute set with every optional field present. -/
def fullAttributes : UAttributes Nat (List Nat) where
  id := 1
  type := 2
  priority := 3
  ttl := some 1000
  token := some [116, 111, 107]
  serializationHint := some 1
  sink := some [47, 97, 47, 49]
  plevel := some 5
  commstatus := some 0
  reqid := some 7

/-- The same fields present as in `fullAttributes`, a token of the same length and
a sink whose encoded text has the same length, every value different. -/
def otherFullAttributes : UAttributes Nat (List Nat) where
  id := 2 ^ 100 + 9
  type := 1
  priority := 6
  ttl := some (-1)
  token := some [97, 98, 99]
  serializationHint := some 4
  sink := some [47, 98, 47, 50, 50]
  plevel := some 70000
  commstatus := some (-3)
  reqid := some (2 ^ 127)

/-- Concrete pointers for evaluation: 8-byte pointers, the addresses some distinct
locations of a 64-bit address space. -/
def examplePointers : Pointers where
  sizeofPtr := 8
  address := fun tag => 140737488347136 + 32 * tag.code

/-! ## Lemmas on bytes and stores -/

theorem bytesLE_length (k n : Nat) : (bytesLE k n).length = k := by
  induction k generalizing n with
  | zero => rfl
  | succ k ih => simp [bytesLE, ih]

theorem objectBytes_length (o : ByteOrder) (width n : Nat) :
    (objectBytes o width n).length = width := by
  cases o <;> simp [objectBytes, bytesLE_length]

theorem int32Bytes_length (t : Target) (v : Int) : (int32Bytes t v).length = 4 := by
  simp [int32Bytes, objectBytes_length]

theorem wrap_of_lt (t : Target) (n : Nat) (h : n < t.sizeRange) : t.wrap n = n :=
  Nat.mod_eq_of_lt h

theorem wrap_le (t : Target) (n : Nat) : t.wrap n ≤ n := Nat.mod_le _ _

theorem store_none (buffer : List Nat) (off : Nat) (src : List Nat)
    (h : buffer.length < off + src.length) : store buffer off src = none := by
  unfold store
  rw [if_neg (by omega)]

/-- On an empty buffer every `addTag` call is out of bounds. -/
theorem addTag_nil (t : Target) (tag : Tag) (d : List Nat) (size pos : Nat) :
    addTag t [] tag d size pos = none := by
  unfold addTag
  split
  · rw [store_none [] pos [tag.toUInt8] (by simp)]; rfl
  · rfl

theorem runCalls_optional {α : Type} (t : Target) (o : Option α)
    (mk : α → PlacedCall) (rest : List PlacedCall) (b : List Nat) :
    runCalls t b ((o.map mk).toList ++ rest) =
      (match o with
        | some v => (addTag t b (mk v).tag (mk v).data (mk v).size (mk v).pos).map Prod.fst
        | none => some b).bind fun b' => runCalls t b' rest := by
  cases o with
  | none => rfl
  | some v =>
    simp only [Option.map_some', Option.toList_some, List.singleton_append, runCalls]
    cases addTag t b (mk v).tag (mk v).data (mk v).size (mk v).pos <;> rfl

theorem headerCalls_nested {UUID UUri : Type} (t : Target) (s : Serializers UUID UUri)
    (p : Pointers) (pos : Nat) (a : UAttributes UUID UUri) :
    headerCalls t s p pos a =
      pointerCall t p Tag.ID (s.serializeToBytes a.id).length
      :: pointerCall t p Tag.TYPE 1
      :: pointerCall t p Tag.PRIORITY 1
      :: ((a.ttl.map fun _ => pointerCall t p Tag.TTL 4).toList
      ++ ((a.token.map fun token =>
            PlacedCall.mk (TagCall.mk Tag.TOKEN token token.length) pos).toList
      ++ ((a.serializationHint.map fun _ => pointerCall t p Tag.HINT 1).toList
      ++ ((a.sink.map fun sink =>
            PlacedCall.mk (TagCall.mk Tag.SINK (s.serialize sink) (s.serialize sink).length)
              pos).toList
      ++ ((a.plevel.map fun _ => pointerCall t p Tag.PLEVEL 4).toList
      ++ ((a.commstatus.map fun _ => pointerCall t p Tag.COMMSTATUS 4).toList
      ++ ((a.reqid.map fun r =>
            pointerCall t p Tag.REQID (s.serializeToBytes r).length).toList
      ++ []))))))) := by
  simp [headerCalls]

/-- Running `buildHeader` on a vector is running its calls in order. -/
theorem buildHeaderFrom_eq_runCalls {UUID UUri : Type} (t : Target)
    (s : Serializers UUID UUri) (p : Pointers) (pos : Nat) (a : UAttributes UUID UUri)
    (header : List Nat) :
    buildHeaderFrom t s p pos a header = runCalls t header (headerCalls t s p pos a) := by
  rw [headerCalls_nested]
  simp only [runCalls, runCalls_optional]
  unfold buildHeaderFrom
  rcases a with ⟨id, ty, pr, ttl, token, hint, sink, plevel, commstatus, reqid⟩
  cases ttl <;> cases token <;> cases hint <;> cases sink <;> cases plevel <;>
    cases commstatus <;> cases reqid <;> rfl

/-! ## Lemmas on the estimate -/

theorem wrap_add_wrap (t : Target) (n m : Nat) : t.wrap (t.wrap n + m) = t.wrap (n + m) := by
  unfold Target.wrap
  exact Nat.mod_add_mod n _ m

theorem updateSize_eq_wrap (t : Target) (size msgSize : Nat) :
    updateSize t size msgSize = t.wrap (msgSize + contribution t size) := by
  unfold updateSize contribution
  simp only [wrap_add_wrap]
  congr 1
  omega

theorem foldl_updateSizeT (t : Target) (calls : List SizeCall) (acc : Nat) :
    List.foldl (fun m c => updateSizeT t c.value m) (t.wrap acc) calls =
      t.wrap (acc + (calls.map fun c => contribution t c.value.valueSize).sum) := by
  induction calls generalizing acc with
  | nil => simp
  | cons c cs ih =>
    simp only [List.foldl_cons, List.map_cons, List.sum_cons]
    rw [updateSizeT, updateSize_eq_wrap, wrap_add_wrap, ih]
    congr 1
    omega

theorem calculateSize_eq_foldl {UUID UUri : Type} (t : Target) (s : Serializers UUID UUri)
    (a : UAttributes UUID UUri) (p : UPayload) :
    calculateSize t s a p =
      updateSize t p.size
        (List.foldl (fun m c => updateSizeT t c.value m) 0 (sizeCalls t s a)) := by
  rcases a with ⟨id, ty, pr, ttl, token, hint, sink, plevel, commstatus, reqid⟩
  cases ttl <;> cases token <;> cases hint <;> cases sink <;> cases plevel <;>
    cases commstatus <;> cases reqid <;> rfl

theorem enumValue_valueSize (t : Target) (ordinal : Nat) :
    (enumValue t ordinal).valueSize = 1 := by
  simp [enumValue, Value.valueSize, objectBytes_length, sizeofEnum]

theorem int32Value_valueSize (t : Target) (v : Int) : (int32Value t v).valueSize = 4 := by
  simp [int32Value, Value.valueSize, objectBytes_length, sizeofInt32]

theorem valueSize_text (chars : List Nat) : (Value.text chars).valueSize = chars.length := rfl

theorem valueSize_bytes (v : List Nat) : (Value.bytes v).valueSize = v.length := rfl

theorem optional_sum {α : Type} (t : Target) (o : Option α) (mk : α → SizeCall)
    (len : α → Nat) (h : ∀ v, (mk v).value.valueSize = len v) :
    (((o.map mk).toList).map fun c => contribution t c.value.valueSize).sum
      = optionalTerm t o len := by
  cases o with
  | none => rfl
  | some v => simp [optionalTerm, contribution, h]

theorem sizeCalls_sum {UUID UUri : Type} (t : Target) (s : Serializers UUID UUri)
    (a : UAttributes UUID UUri) (p : UPayload) :
    ((sizeCalls t s a).map fun c => contribution t c.value.valueSize).sum
      + contribution t p.size = specEstimate t s a p := by
  simp only [sizeCalls, List.map_append, List.sum_append, List.map_cons, List.sum_cons,
    List.map_nil, List.sum_nil]
  rw [optional_sum t a.ttl _ (fun _ => 4) (fun v => int32Value_valueSize t v),
    optional_sum t a.token _ (fun token => token.length) (fun v => valueSize_text v),
    optional_sum t a.serializationHint _ (fun _ => 1) (fun v => enumValue_valueSize t v),
    optional_sum t a.sink _ (fun sink => (s.encode (s.serialize sink)).length)
      (fun v => valueSize_text _),
    optional_sum t a.plevel _ (fun _ => 4) (fun v => int32Value_valueSize t v),
    optional_sum t a.commstatus _ (fun _ => 4) (fun v => int32Value_valueSize t v),
    optional_sum t a.reqid _ (fun r => (s.serializeToBytes r).length)
      (fun v => valueSize_bytes _)]
  simp only [specEstimate, contribution, enumValue_valueSize, valueSize_bytes]
  omega

theorem calculateSize_eq_wrap {UUID UUri : Type} (t : Target) (s : Serializers UUID UUri)
    (a : UAttributes UUID UUri) (p : UPayload) :
    calculateSize t s a p = t.wrap (specEstimate t s a p) := by
  have h0 : (0 : Nat) = t.wrap 0 := by simp [Target.wrap]
  rw [calculateSize_eq_foldl, updateSize_eq_wrap]
  conv_lhs => rw [h0]
  rw [foldl_updateSizeT, wrap_add_wrap, ← sizeCalls_sum]
  congr 1
  omega

/-! ## buildHeader on its empty vector -/

/-- The vector of `buildHeader` is empty, so its first `addTag` call already stores
outside the vector: no run of `buildHeader` is defined. -/
theorem buildHeader_undefined {UUID UUri : Type} (t : Target) (s : Serializers UUID UUri)
    (p : Pointers) (pos : Nat) (a : UAttributes UUID UUri) :
    buildHeader t s p pos a = none := by
  unfold buildHeader buildHeaderFrom addTagT
  simp only [addTag_nil, Option.none_bind]

/-! ## The estimate -/

/-- C5: for every attribute set and payload, `calculateSize` is the sum of
`1 + W + value_length` over ID, TYPE, PRIORITY and every present optional field
plus `1 + W + p.size()`, computed in `size_t`: it is that sum reduced modulo
`2 ^ (8 * W)`, hence the sum itself whenever the sum is a `size_t` value. For the
example attributes with payload size 50 and `W = 8` it is
`(9+16) + (9+1) + (9+1) + (9+4) + (9+50) = 117`. -/
theorem calculateSize_formula {UUID UUri : Type} (t : Target) (s : Serializers UUID UUri)
    (a : UAttributes UUID UUri) (p : UPayload) :
    calculateSize t s a p = t.wrap (specEstimate t s a p) ∧
    (specEstimate t s a p < t.sizeRange → calculateSize t s a p = specEstimate t s a p) ∧
    calculateSize lp64 stdSerializers exampleAttributes (UPayload.mk 50)
      = (9 + 16) + (9 + 1) + (9 + 1) + (9 + 4) + (9 + 50) ∧
    (9 + 16) + (9 + 1) + (9 + 1) + (9 + 4) + (9 + 50) = 117 := by
  refine ⟨calculateSize_eq_wrap t s a p, ?_, by decide, by decide⟩
  intro h
  rw [calculateSize_eq_wrap, wrap_of_lt t _ h]

/-- Witness of C5: the regression attributes (sink present) with a 12-byte payload. -/
theorem calculateSize_formula_witness :
    specEstimate lp64 stdSerializers sinkAttributes (UPayload.mk 12) < lp64.sizeRange ∧
    calculateSize lp64 stdSerializers sinkAttributes (UPayload.mk 12)
      = specEstimate lp64 stdSerializers sinkAttributes (UPayload.mk 12) :=
  ⟨by decide,
    (calculateSize_formula lp64 stdSerializers sinkAttributes (UPayload.mk 12)).2.1
      (by decide)⟩

/-! ## The two passes, field by field -/

theorem optional_filter_keep {α β γ : Type} (o : Option α) (mk : α → β) (p : β → Bool)
    (f : β → γ) (h : ∀ v, p (mk v) = true) :
    (((o.map mk).toList).filter p).map f = (o.map fun v => f (mk v)).toList := by
  cases o with
  | none => rfl
  | some v => simp [h]

theorem optional_filter_drop {α β γ : Type} (o : Option α) (mk : α → β) (p : β → Bool)
    (f : β → γ) (h : ∀ v, p (mk v) = false) :
    (((o.map mk).toList).filter p).map f = [] := by
  cases o with
  | none => rfl
  | some v => simp [h]

theorem optional_forall {α β : Type} (o : Option α) (mk : α → β) (P : β → Prop)
    (h : ∀ v, P (mk v)) : ∀ c ∈ (o.map mk).toList, P c := by
  cases o with
  | none => intro c hc; simp at hc
  | some v => intro c hc; simp at hc; subst hc; exact h v

theorem sizeCalls_view {UUID UUri : Type} (t : Target) (s : Serializers UUID UUri)
    (a : UAttributes UUID UUri) :
    ((sizeCalls t s a).filter fun c => c.tag != Tag.SINK).map
        (fun c => (c.tag, contribution t c.value.valueSize))
      = [(Tag.ID, (s.serializeToBytes a.id).length + (1 + t.W)),
         (Tag.TYPE, 1 + (1 + t.W)), (Tag.PRIORITY, 1 + (1 + t.W))]
        ++ (a.ttl.map fun _ => (Tag.TTL, 4 + (1 + t.W))).toList
        ++ (a.token.map fun token => (Tag.TOKEN, token.length + (1 + t.W))).toList
        ++ (a.serializationHint.map fun _ => (Tag.HINT, 1 + (1 + t.W))).toList
        ++ (a.plevel.map fun _ => (Tag.PLEVEL, 4 + (1 + t.W))).toList
        ++ (a.commstatus.map fun _ => (Tag.COMMSTATUS, 4 + (1 + t.W))).toList
        ++ (a.reqid.map fun r => (Tag.REQID, (s.serializeToBytes r).length + (1 + t.W))).toList := by
  unfold sizeCalls
  simp only [List.filter_append, List.map_append]
  rw [optional_filter_keep a.ttl _ _ _ (fun _ => rfl),
    optional_filter_keep a.token _ _ _ (fun _ => rfl),
    optional_filter_keep a.serializationHint _ _ _ (fun _ => rfl),
    optional_filter_drop a.sink _ _ _ (fun _ => rfl),
    optional_filter_keep a.plevel _ _ _ (fun _ => rfl),
    optional_filter_keep a.commstatus _ _ _ (fun _ => rfl),
    optional_filter_keep a.reqid _ _ _ (fun _ => rfl)]
  have hc : ∀ n, contribution t n = n + (1 + t.W) := fun n => by
    unfold contribution; omega
  simp only [hc, enumValue_valueSize, int32Value_valueSize, valueSize_text, valueSize_bytes,
    List.append_nil]
  simp [enumValue_valueSize, valueSize_bytes]

theorem sizeCalls_enum {UUID UUri : Type} (t : Target) (s : Serializers UUID UUri)
    (a : UAttributes UUID UUri) :
    ∀ c ∈ sizeCalls t s a,
      c.tag = Tag.TYPE ∨ c.tag = Tag.PRIORITY ∨ c.tag = Tag.HINT →
        c.value.valueSize = 1 := by
  unfold sizeCalls
  simp only [List.forall_mem_append, List.forall_mem_cons]
  refine ⟨⟨⟨⟨⟨⟨⟨⟨?_, ?_, ?_, ?_⟩, ?_⟩, ?_⟩, ?_⟩, ?_⟩, ?_⟩, ?_⟩, ?_⟩
  · intro h; simp at h
  · intro _; exact enumValue_valueSize t _
  · intro _; exact enumValue_valueSize t _
  · intro c hc; simp at hc
  · exact optional_forall a.ttl _ _ (fun v h => by simp at h)
  · exact optional_forall a.token _ _ (fun v h => by simp at h)
  · exact optional_forall a.serializationHint _ _ (fun v _ => enumValue_valueSize t _)
  · exact optional_forall a.sink _ _ (fun v h => by simp at h)
  · exact optional_forall a.plevel _ _ (fun v h => by simp at h)
  · exact optional_forall a.commstatus _ _ (fun v h => by simp at h)
  · exact optional_forall a.reqid _ _ (fun v h => by simp at h)

/-- C9: evaluation at the example attributes. `calculateSize` adds 25, 10, 10 and
13 bytes for ID, TYPE, PRIORITY and TTL (value lengths 16, 1, 1, 4). `buildHeader`
passes a `uint8_t*` in each of these calls, so the template is chosen and `addTag`
receives the `sizeof(uint8_t*) = 8` bytes of the pointer, with the size given in
the call taken as `pos` (16, 1, 1, 4): 17 bytes per field, not 25, 10, 10, 13; and
the bytes are those of the address, not of the field. Only for a token, handed over
as `const uint8_t*`, do the two passes agree. -/
theorem pointer_bytes_passed :
    (sizeCalls lp64 stdSerializers exampleAttributes).map
        (fun c => (c.tag, contribution lp64 c.value.valueSize))
      = [(Tag.ID, 25), (Tag.TYPE, 10), (Tag.PRIORITY, 10), (Tag.TTL, 13)] ∧
    (∀ address pos,
      (headerCalls lp64 stdSerializers (Pointers.mk 8 address) pos exampleAttributes).map
          (fun c => (c.tag, c.size + (1 + lp64.W), c.pos))
        = [(Tag.ID, 17, 16), (Tag.TYPE, 17, 1), (Tag.PRIORITY, 17, 1), (Tag.TTL, 17, 4)]) ∧
    (∀ address pos,
      (headerCalls lp64 stdSerializers (Pointers.mk 8 address) pos exampleAttributes).map
          (fun c => c.data)
        = [Tag.ID, Tag.TYPE, Tag.PRIORITY, Tag.TTL].map
            (fun tag => objectBytes ByteOrder.little 8 (address tag))) ∧
    (∀ p pos,
      ((headerCalls lp64 stdSerializers p pos fullAttributes).filter
          (fun c => c.tag == Tag.TOKEN)).map (fun c => (c.data, c.size + (1 + lp64.W)))
        = [([116, 111, 107], 12)]) ∧
    ((sizeCalls lp64 stdSerializers fullAttributes).filter
        (fun c => c.tag == Tag.TOKEN)).map (fun c => contribution lp64 c.value.valueSize)
      = [12] :=
  ⟨by decide, fun _ _ => rfl, fun _ _ => rfl, fun _ _ => rfl, by decide⟩

/-! ## Where the code departs from the contract -/

/-- C8: evaluation at the regression attributes (only `sink` present, canonical text
`/a/1`): `calculateSize` accounts the 8 characters of the Base64 text for the sink,
`buildHeader` hands the 4 characters of the canonical text to `addTag` (the sink is
passed as `const uint8_t*`, so this call reaches the five-parameter function). -/
theorem sink_lengths_differ :
    ((sizeCalls lp64 stdSerializers sinkAttributes).filter fun c => c.tag == Tag.SINK).map
        (fun c => c.value.valueSize) = [8] ∧
    (∀ p pos,
      ((headerCalls lp64 stdSerializers p pos sinkAttributes).filter
          fun c => c.tag == Tag.SINK).map (fun c => c.size) = [4]) ∧
    stdSerializers.encode (stdSerializers.serialize [47, 97, 47, 49])
      = [76, 50, 69, 118, 77, 81, 61, 61] :=
  ⟨by decide, fun _ _ => rfl, by decide⟩

/-- C1: evaluation at the regression attributes with an empty payload:
`calculateSize` gives 71; `buildHeader` returns no buffer at all, whatever the
pointers and the default `pos` are, and the layout of the contract takes 58 bytes,
so that even its total with the payload term, 67, is not the estimate. -/
theorem symmetry_fails :
    calculateSize lp64 stdSerializers sinkAttributes (UPayload.mk 0) = 71 ∧
    (∀ p pos, buildHeader lp64 stdSerializers p pos sinkAttributes = none) ∧
    (¬ ∃ p pos header, buildHeader lp64 stdSerializers p pos sinkAttributes = some header ∧
      calculateSize lp64 stdSerializers sinkAttributes (UPayload.mk 0)
        = header.length + (1 + lp64.W + 0)) ∧
    (specHeader lp64 stdSerializers sinkAttributes).length + (1 + lp64.W + 0) = 67 := by
  refine ⟨by decide, fun p pos => buildHeader_undefined _ _ p pos _, ?_, by decide⟩
  rintro ⟨p, pos, header, h, _⟩
  rw [buildHeader_undefined] at h
  exact Option.noConfusion h

/-- C2: evaluation at the example attributes: `buildHeader` returns no buffer,
whatever the pointers and the default `pos` are, where the layout of the contract
has 58 bytes. Run on a zeroed vector of 58 bytes with 8-byte pointers, the calls
ID, TYPE, PRIORITY, TTL write at the offsets 16, 1, 1, 4 (the size given in each
call), each entry carrying the length 8 and the bytes of a pointer: the vector then
begins `0, 3, 8, 0, 4, 8, 0, ...`, whatever the addresses, and is not the layout. -/
theorem layout_not_produced :
    (∀ p pos, buildHeader lp64 stdSerializers p pos exampleAttributes = none) ∧
    (specHeader lp64 stdSerializers exampleAttributes).length = 58 ∧
    (∀ address pos,
      (buildHeaderFrom lp64 stdSerializers (Pointers.mk 8 address) pos exampleAttributes
          (List.replicate 58 0)).map (List.take 13)
        = some [0, 3, 8, 0, 4, 8, 0, 0, 0, 0, 0, 0, 0]) ∧
    (specHeader lp64 stdSerializers exampleAttributes).take 13
      = [1, 16, 0, 0, 0, 0, 0, 0, 0, 0, 0, 0, 0] ∧
    (∀ address pos,
      buildHeaderFrom lp64 stdSerializers (Pointers.mk 8 address) pos exampleAttributes
          (List.replicate 58 0)
        ≠ some (specHeader lp64 stdSerializers exampleAttributes)) ∧
    (buildHeaderFrom lp64 stdSerializers examplePointers 0 exampleAttributes
        (List.replicate 58 0)
      = some ([0, 3, 8, 0, 4, 8, 0, 0, 0, 0, 0, 0, 0]
          ++ objectBytes ByteOrder.little 8 (examplePointers.address Tag.TTL)
          ++ [0, 0, 0, 0]
          ++ objectBytes ByteOrder.little 8 (examplePointers.address Tag.ID)
          ++ List.replicate 25 0)) := by
  have h13 : ∀ address pos,
      (buildHeaderFrom lp64 stdSerializers (Pointers.mk 8 address) pos exampleAttributes
          (List.replicate 58 0)).map (List.take 13)
        = some [0, 3, 8, 0, 4, 8, 0, 0, 0, 0, 0, 0, 0] := by
    intro address pos
    simp [buildHeaderFrom, exampleAttributes, Pointers.value, addTagT, addTag, store,
      objectBytes, bytesLE, Target.wrap, Target.sizeRange, lp64, Value.valueBytes,
      Value.valueSize, Tag.toUInt8, Tag.code, stdSerializers, List.replicate]
  refine ⟨fun p pos => buildHeader_undefined _ _ p pos _, by decide, h13, by decide, ?_,
    by decide⟩
  intro address pos h
  have h' := h13 address pos
  rw [h] at h'
  revert h'
  decide

/-- C6: evaluation at the example attributes, in which `ttl` is present:
`buildHeader` returns no buffer, so there is none in which an entry with the TTL
tag occurs, although the layout of the contract has one. -/
theorem present_field_without_entry :
    exampleAttributes.ttl = some 1000 ∧
    (¬ ∃ p pos header, buildHeader lp64 stdSerializers p pos exampleAttributes = some header ∧
      Tag.TTL.toUInt8 ∈ readTags lp64 header) ∧
    Tag.TTL.toUInt8 ∈ readTags lp64 (specHeader lp64 stdSerializers exampleAttributes) := by
  refine ⟨rfl, ?_, by decide⟩
  rintro ⟨p, pos, header, h, _⟩
  rw [buildHeader_undefined] at h
  exact Option.noConfusion h

/-- C7: evaluation at the example attributes: the `addTag` calls come in the order
ID, TYPE, PRIORITY, TTL, but `buildHeader` returns no buffer, so there is none that
reads as these entries, although the layout of the contract does. -/
theorem order_not_in_buffer :
    (∀ p pos, (headerCalls lp64 stdSerializers p pos exampleAttributes).map (fun c => c.tag)
      = [Tag.ID, Tag.TYPE, Tag.PRIORITY, Tag.TTL]) ∧
    (¬ ∃ p pos header, buildHeader lp64 stdSerializers p pos exampleAttributes = some header ∧
      readTags lp64 header = [1, 2, 3, 4]) ∧
    readTags lp64 (specHeader lp64 stdSerializers exampleAttributes) = [1, 2, 3, 4] := by
  refine ⟨fun _ _ => rfl, ?_, by decide⟩
  rintro ⟨p, pos, header, h, _⟩
  rw [buildHeader_undefined] at h
  exact Option.noConfusion h

/-- C10: evaluation at the example attributes: the vector of `buildHeader` has
size 0 and `calculateSize` is not consulted. The first call passes the pointer
`idBytes.data()` and the size 16, so through the template it is `addTag` with the
8 bytes of the pointer at `pos = 16`: it needs `16 + 1 + 8 + 8` bytes, the
precondition fails, the call stores outside the vector and `buildHeader` has no
defined result. A call with the 16 identifier bytes would be out of bounds as
well, for every `pos`. -/
theorem first_write_out_of_bounds :
    (stdSerializers.serializeToBytes exampleAttributes.id).length = 16 ∧
    (∀ pos, ¬ addTagPre lp64 [] 16 pos) ∧
    (∀ pos, addTag lp64 [] Tag.ID (stdSerializers.serializeToBytes exampleAttributes.id)
      16 pos = none) ∧
    (∀ p pos, buildHeader lp64 stdSerializers p pos exampleAttributes = none) ∧
    (∀ p pos, (headerCalls lp64 stdSerializers p pos exampleAttributes).head?
      = some (pointerCall lp64 p Tag.ID 16)) ∧
    (∀ p, ¬ addTagPre lp64 [] (pointerCall lp64 p Tag.ID 16).size 16) ∧
    (∀ p : Pointers, addTagT lp64 [] Tag.ID (p.value lp64 Tag.ID) 16 = none) := by
  refine ⟨by decide, ?_, fun pos => addTag_nil _ _ _ _ pos,
    fun p pos => buildHeader_undefined _ _ p pos _, fun _ _ => rfl, ?_,
    fun p => addTag_nil _ _ _ _ _⟩
  · intro pos h
    unfold addTagPre at h
    simp at h
  · intro p h
    unfold addTagPre at h
    simp at h

/-! ## The length field -/

theorem optionalTerm_const {α β : Type} (t : Target) (o : Option α) (o' : Option β) (c : Nat)
    (h : o.isSome = o'.isSome) :
    optionalTerm t o (fun _ => c) = optionalTerm t o' (fun _ => c) := by
  cases o <;> cases o' <;> simp_all [optionalTerm]

theorem optionalTerm_map {α β : Type} (t : Target) (o : Option α) (o' : Option β)
    (len : α → Nat) (len' : β → Nat) (h : o.map len = o'.map len') :
    optionalTerm t o len = optionalTerm t o' len' := by
  cases o <;> cases o' <;> simp_all [optionalTerm]

/-- C17: when identifiers serialize to a fixed width (the contract of the
identifier serializer, §6), two attribute sets with the same optional fields
present, tokens of equal length and sinks whose encoded text has equal length,
with payloads of equal size, get the same `calculateSize`, whatever the values of
id, type, priority, ttl, serializationHint, plevel, commstatus and reqid. -/
theorem calculateSize_ignores_values {UUID UUri : Type} (t : Target)
    (s : Serializers UUID UUri) (a a' : UAttributes UUID UUri) (p p' : UPayload)
    (hfixed : ∀ u u', (s.serializeToBytes u).length = (s.serializeToBytes u').length)
    (httl : a.ttl.isSome = a'.ttl.isSome)
    (htoken : a.token.map List.length = a'.token.map List.length)
    (hhint : a.serializationHint.isSome = a'.serializationHint.isSome)
    (hsink : a.sink.map (fun u => (s.encode (s.serialize u)).length)
      = a'.sink.map (fun u => (s.encode (s.serialize u)).length))
    (hplevel : a.plevel.isSome = a'.plevel.isSome)
    (hcommstatus : a.commstatus.isSome = a'.commstatus.isSome)
    (hreqid : a.reqid.isSome = a'.reqid.isSome)
    (hp : p.size = p'.size) :
    calculateSize t s a p = calculateSize t s a' p' := by
  rw [calculateSize_eq_wrap, calculateSize_eq_wrap]
  congr 1
  unfold specEstimate
  have hr : optionalTerm t a.reqid (fun r => (s.serializeToBytes r).length)
      = optionalTerm t a'.reqid (fun r => (s.serializeToBytes r).length) := by
    apply optionalTerm_map
    cases h1 : a.reqid <;> cases h2 : a'.reqid <;> simp_all
    exact hfixed _ _
  rw [hfixed a.id a'.id, optionalTerm_const t a.ttl a'.ttl 4 httl,
    optionalTerm_map t a.token a'.token _ _ htoken,
    optionalTerm_const t a.serializationHint a'.serializationHint 1 hhint,
    optionalTerm_map t a.sink a'.sink _ _ hsink,
    optionalTerm_const t a.plevel a'.plevel 4 hplevel,
    optionalTerm_const t a.commstatus a'.commstatus 4 hcommstatus, hr, hp]

/-- Witness of C17: two attribute sets with every optional field present and every
value different, payloads of 50 bytes. -/
theorem calculateSize_ignores_values_witness :
    (∀ u u' : Nat, (stdSerializers.serializeToBytes u).length
      = (stdSerializers.serializeToBytes u').length) ∧
    fullAttributes.id ≠ otherFullAttributes.id ∧
    fullAttributes.ttl ≠ otherFullAttributes.ttl ∧
    fullAttributes.reqid ≠ otherFullAttributes.reqid ∧
    calculateSize lp64 stdSerializers fullAttributes (UPayload.mk 50)
      = calculateSize lp64 stdSerializers otherFullAttributes (UPayload.mk 50) :=
  ⟨fun u u' => by simp [stdSerializers, bytesLE_length], by decide, by decide, by decide,
    calculateSize_ignores_values lp64 stdSerializers fullAttributes otherFullAttributes
      (UPayload.mk 50) (UPayload.mk 50)
      (fun u u' => by simp [stdSerializers, bytesLE_length])
      rfl rfl rfl (by decide) rfl rfl rfl rfl⟩

/-! ## Tags -/

theorem optional_map {α β γ : Type} (o : Option α) (mk : α → β) (f : β → γ) :
    ((o.map mk).toList).map f = (o.map fun v => f (mk v)).toList := by
  cases o <;> rfl

theorem headerCalls_tags {UUID UUri : Type} (t : Target) (s : Serializers UUID UUri)
    (p : Pointers) (pos : Nat) (a : UAttributes UUID UUri) :
    (headerCalls t s p pos a).map (fun c => c.tag)
      = [Tag.ID, Tag.TYPE, Tag.PRIORITY]
        ++ (a.ttl.map fun _ => Tag.TTL).toList
        ++ (a.token.map fun _ => Tag.TOKEN).toList
        ++ (a.serializationHint.map fun _ => Tag.HINT).toList
        ++ (a.sink.map fun _ => Tag.SINK).toList
        ++ (a.plevel.map fun _ => Tag.PLEVEL).toList
        ++ (a.commstatus.map fun _ => Tag.COMMSTATUS).toList
        ++ (a.reqid.map fun _ => Tag.REQID).toList := by
  unfold headerCalls
  simp only [List.map_append, optional_map]
  rfl

theorem optional_const_toList {α β : Type} (o : Option α) (x : β) :
    (o.map fun _ => x).toList = if o.isSome then [x] else [] := by
  cases o <;> rfl

theorem headerCalls_tags_nodup {UUID UUri : Type} (t : Target) (s : Serializers UUID UUri)
    (p : Pointers) (pos : Nat) (a : UAttributes UUID UUri) :
    ((headerCalls t s p pos a).map (fun c => c.tag)).Nodup := by
  rw [headerCalls_tags]
  simp only [optional_const_toList]
  generalize a.ttl.isSome = b1
  generalize a.token.isSome = b2
  generalize a.serializationHint.isSome = b3
  generalize a.sink.isSome = b4
  generalize a.plevel.isSome = b5
  generalize a.commstatus.isSome = b6
  generalize a.reqid.isSome = b7
  revert b1 b2 b3 b4 b5 b6 b7
  decide

/-- C14: the ten tag codes, as the byte `static_cast<uint8_t>(tag)` that `addTag`
writes, are pairwise distinct values below 256; the `addTag` calls of
`buildHeader` never use a tag twice, and with every field present they use the
ten tags, one per field kind. -/
theorem tag_codes_distinct :
    Function.Injective Tag.toUInt8 ∧
    (∀ tag : Tag, tag.toUInt8 < 256) ∧
    [Tag.ID, Tag.TYPE, Tag.PRIORITY, Tag.TTL, Tag.TOKEN, Tag.HINT, Tag.SINK, Tag.PLEVEL,
      Tag.COMMSTATUS, Tag.REQID].map Tag.toUInt8 = [1, 2, 3, 4, 5, 6, 7, 8, 9, 10] ∧
    (∀ (UUID UUri : Type) (t : Target) (s : Serializers UUID UUri) (p : Pointers)
      (pos : Nat) (a : UAttributes UUID UUri),
      ((headerCalls t s p pos a).map (fun c => c.tag)).Nodup) ∧
    (∀ p pos, (headerCalls lp64 stdSerializers p pos fullAttributes).map (fun c => c.tag)
      = [Tag.ID, Tag.TYPE, Tag.PRIORITY, Tag.TTL, Tag.TOKEN, Tag.HINT, Tag.SINK, Tag.PLEVEL,
          Tag.COMMSTATUS, Tag.REQID]) := by
  refine ⟨?_, ?_, by decide, fun _ _ t s p pos a => headerCalls_tags_nodup t s p pos a,
    fun _ _ => rfl⟩
  · intro x y h
    cases x <;> cases y <;> first | rfl | exact absurd h (by decide)
  · intro tag
    cases tag <;> decide

/-! ## The example and the edge cases on the code -/

/-- C11: evaluation at the example attributes: on either byte order `buildHeader`
returns no buffer, whatever the default `pos` is, so it does not return the 58
bytes of the example; these are the layout of the contract on a big-endian target
and differ from it on a little-endian one, where the length 16 is stored as
`10 00 00 00 00 00 00 00`. -/
theorem example_not_produced :
    (∀ p pos, buildHeader lp64 stdSerializers p pos exampleAttributes = none) ∧
    (∀ p pos, buildHeader be64 stdSerializers p pos exampleAttributes = none) ∧
    (¬ ∃ t p pos, buildHeader t stdSerializers p pos exampleAttributes = some exampleExpected) ∧
    exampleExpected.length = 58 ∧
    specHeader be64 stdSerializers exampleAttributes = exampleExpected ∧
    specHeader lp64 stdSerializers exampleAttributes ≠ exampleExpected ∧
    objectBytes ByteOrder.little 8 16 = [16, 0, 0, 0, 0, 0, 0, 0] := by
  refine ⟨fun p pos => buildHeader_undefined _ _ p pos _, fun p pos => buildHeader_undefined _ _ p pos _,
    ?_, by decide, by decide, by decide, by decide⟩
  rintro ⟨t, p, pos, h⟩
  rw [buildHeader_undefined] at h
  exact Option.noConfusion h

/-- C12: evaluation at an attribute set whose token is the empty string:
`buildHeader` hands `addTag` a TOKEN call with no bytes and size 0, whose entry
would be the tag byte and a zero length field, `1 + W` bytes, and `calculateSize`
accounts `1 + W` bytes for it; but `buildHeader` returns no buffer, so no buffer
contains that entry. -/
theorem empty_token_entry :
    emptyTokenAttributes.token = some [] ∧
    (∀ p pos,
      ((headerCalls lp64 stdSerializers p pos emptyTokenAttributes).filter
          (fun c => c.tag == Tag.TOKEN)).map PlacedCall.toTagCall
        = [TagCall.mk Tag.TOKEN [] 0]) ∧
    tlvEntry lp64 (TagCall.mk Tag.TOKEN [] 0) = [5, 0, 0, 0, 0, 0, 0, 0, 0] ∧
    ((sizeCalls lp64 stdSerializers emptyTokenAttributes).filter
        (fun c => c.tag == Tag.TOKEN)).map (fun c => contribution lp64 c.value.valueSize)
      = [1 + lp64.W] ∧
    (∀ p pos, buildHeader lp64 stdSerializers p pos emptyTokenAttributes = none) ∧
    (¬ ∃ p pos header, buildHeader lp64 stdSerializers p pos emptyTokenAttributes = some header ∧
      Tag.TOKEN.toUInt8 ∈ readTags lp64 header) := by
  refine ⟨rfl, fun _ _ => rfl, by decide, by decide,
    fun p pos => buildHeader_undefined _ _ p pos _, ?_⟩
  rintro ⟨p, pos, header, h, _⟩
  rw [buildHeader_undefined] at h
  exact Option.noConfusion h

/-- C13: evaluation at two attribute sets with identical field values (the example
attributes and a second set built from the same values): `calculateSize` gives 117
for both, but `buildHeader` returns a buffer for neither, so there are no two
returned buffers to be byte-identical. -/
theorem no_buffers_to_compare :
    calculateSize lp64 stdSerializers exampleAttributes (UPayload.mk 50) = 117 ∧
    calculateSize lp64 stdSerializers
      (UAttributes.mk 1 2 3 (some 1000) none none none none none none) (UPayload.mk 50) = 117 ∧
    (∀ p pos, buildHeader lp64 stdSerializers p pos exampleAttributes = none) ∧
    (∀ p pos, buildHeader lp64 stdSerializers p pos
      (UAttributes.mk 1 2 3 (some 1000) none none none none none none) = none) ∧
    (¬ ∃ p p' pos pos' header header',
      buildHeader lp64 stdSerializers p pos exampleAttributes = some header ∧
      buildHeader lp64 stdSerializers p' pos'
        (UAttributes.mk 1 2 3 (some 1000) none none none none none none) = some header' ∧
      header = header') := by
  refine ⟨by decide, by decide, fun p pos => buildHeader_undefined _ _ p pos _,
    fun p pos => buildHeader_undefined _ _ p pos _, ?_⟩
  rintro ⟨p, p', pos, pos', header, header', h, _, _⟩
  rw [buildHeader_undefined] at h
  exact Option.noConfusion h
end MessageBuilder
